import Mathlib

/-!
Verification development for the smart-parking allocation service
(source file `src/api/app.py`).

Modelling conventions:
* Timestamps are naive datetimes at one-second resolution, embedded as
  seconds since the Unix epoch (`Int`).  `weekday`/`hour` follow Python
  `datetime.weekday()` (Monday = 0; 1970-01-01 was a Thursday) and
  `datetime.hour`.
* Floating-point scores, durations and rates are embedded as `Rat`.
* Each call of `datetime.now()` during a status computation consumes the
  next sample of an explicit clock stream `Clock : Nat -> Int`; the code
  calls `now()` repeatedly inside its loops, and the clock stream makes
  every individual sample visible.
* The allocation engine (`utils/simulation_strategies.py`,
  `utils/parking_system.py`) and the TinyDB wrapper (`db.py`) are not part
  of the available sources; where a definition embeds them it is modelled
  from the specification and says so in its doc comment.
-/

namespace SmartParking

/-- Naive datetime at one-second resolution: seconds since the Unix epoch. -/
structure DateTime where
  epochSeconds : Int
deriving DecidableEq

/-- Python `datetime.weekday()`: Monday = 0.  Day 0 of the epoch
(1970-01-01) was a Thursday, hence the offset 3.  Python `//` and `%` are
floor division and floor remainder, i.e. `Int.fdiv` / `Int.emod`. -/
def DateTime.weekday (t : DateTime) : Int :=
  (t.epochSeconds.fdiv 86400 + 3).emod 7

/-- Python `datetime.hour`: the hour-of-day component. -/
def DateTime.hour (t : DateTime) : Int :=
  (t.epochSeconds.emod 86400).fdiv 3600

/-- Request body of the allocation endpoints (`models.models.VehicleData`,
fields as used by `app.py`); `arrival_time`/`departure_time` are already
parsed (`parse_datetime`). -/
structure VehicleData where
  vehicle_plate_num : String
  vehicle_plate_type : String
  vehicle_type : String
  arrival_time : DateTime
  departure_time : DateTime
  priority_level : Nat
deriving DecidableEq

/-- The `vehicle_input` dict built by `allocate_parking`
(`app.py` lines 228-242) and `bulk_allocate_parking` (lines 355-369):
the supplied fields plus the three derived features. -/
structure VehicleInput where
  vehicle_plate_num : String
  vehicle_plate_type : String
  vehicle_type : String
  arrival_time : DateTime
  departure_time : DateTime
  priority_level : Nat
  duration_hours : Rat
  day_of_week : Int
  hour_of_day : Int
deriving DecidableEq

/-- Embedding of `app.py` lines 228-242: copy the supplied fields and derive
`duration_hours = (departure_time - arrival_time).total_seconds() / 3600`,
`day_of_week = arrival_time.weekday()`, `hour_of_day = arrival_time.hour`. -/
def buildVehicleInput (v : VehicleData) : VehicleInput :=
  { vehicle_plate_num := v.vehicle_plate_num
    vehicle_plate_type := v.vehicle_plate_type
    vehicle_type := v.vehicle_type
    arrival_time := v.arrival_time
    departure_time := v.departure_time
    priority_level := v.priority_level
    duration_hours :=
      ((v.departure_time.epochSeconds - v.arrival_time.epochSeconds : Int) : Rat) / 3600
    day_of_week := v.arrival_time.weekday
    hour_of_day := v.arrival_time.hour }

/-- Spec-side formula: the time window of a request expressed in hours. -/
def hoursBetween (a b : DateTime) : Rat :=
  ((b.epochSeconds - a.epochSeconds : Int) : Rat) / 3600

/-- Immutable facility shape (`ParkingEnvironment(num_bays, slots_per_bay)`;
`app.py` line 111 instantiates it with 4 bays of 10 slots). -/
structure Facility where
  num_bays : Nat
  slots_per_bay : Nat
deriving DecidableEq

def Facility.capacity (f : Facility) : Nat := f.num_bays * f.slots_per_bay

/-- All cells of a facility in bay-major, slot-minor order (0-based). -/
def allCells (f : Facility) : List (Nat × Nat) :=
  (List.range f.num_bays).flatMap fun b =>
    (List.range f.slots_per_bay).map fun s => (b, s)

/-- Reservation attached to an occupied cell. -/
structure Reservation where
  vehicle_id : String
  arrival_time : DateTime
  departure_time : DateTime
  priority_level : Nat
deriving DecidableEq

/-- The occupancy grid: the facility shape plus the recorded reservations,
one list entry per occupied cell (cells are 0-based `(bay, slot)` pairs). -/
structure OccupancyGrid where
  facility : Facility
  occ : List ((Nat × Nat) × Reservation)
deriving DecidableEq

def OccupancyGrid.empty (f : Facility) : OccupancyGrid := ⟨f, []⟩

/-- The cells currently holding a reservation. -/
def OccupancyGrid.occCells (g : OccupancyGrid) : List (Nat × Nat) :=
  g.occ.map Prod.fst

def OccupancyGrid.is_free (g : OccupancyGrid) (c : Nat × Nat) : Bool :=
  decide (c ∉ g.occCells)

/-- Free cells in bay-major, slot-minor order. -/
def free_cells (g : OccupancyGrid) : List (Nat × Nat) :=
  (allCells g.facility).filter fun c => g.is_free c

/-- Error taxonomy of the engine (spec section 7). -/
inductive AllocError
  | invalidRequest
  | conflict
  | notOccupied
deriving DecidableEq

def AllocError.message : AllocError → String
  | .invalidRequest => "invalid request: arrival not before departure"
  | .conflict => "conflict: cell already occupied"
  | .notOccupied => "release of a free cell"

/-- Sole write path of the grid: record a reservation on a free cell,
fail with `ConflictError` on an occupied one. -/
def OccupancyGrid.occupy (g : OccupancyGrid) (c : Nat × Nat) (r : Reservation) :
    Except AllocError OccupancyGrid :=
  if g.is_free c then .ok { g with occ := g.occ ++ [(c, r)] } else .error .conflict

/-- A request is well formed when its arrival is strictly before its
departure. -/
def validRequest (r : VehicleInput) : Bool :=
  decide (r.arrival_time.epochSeconds < r.departure_time.epochSeconds)

/-- Modelled from the spec: the injected, seedable random source required by
the random policy (`utils/simulation_strategies.py` is not among the
available sources).  A 64-bit linear congruential step. -/
def rngNext (s : Nat) : Nat :=
  (6364136223846793005 * s + 1442695040888963407) % (2 ^ 64)

/-- Modelled from the spec: the ScoringAdapter of section 4.2 reduced to the
one quantity `decide` consumes — the combined (model score, value-table)
score of a candidate cell for a request against the current grid.  Pure:
it never mutates the grid. -/
structure ScoringAdapter where
  combinedScore : VehicleInput → OccupancyGrid → (Nat × Nat) → Rat

/-- Highest-scoring cell of a candidate list; numeric ties are broken in
favour of the earlier list entry, i.e. ascending `(bay, slot)` on the
bay-major `free_cells` order. -/
def chooseBest (score : (Nat × Nat) → Rat) : List (Nat × Nat) → Option (Nat × Nat)
  | [] => none
  | c :: rest =>
    match chooseBest score rest with
    | none => some c
    | some d => if score c < score d then some d else some c

/-- The three interchangeable policy variants, with the source repository
strategy names (`algorithm` is the learned variant). -/
inductive Variant
  | algorithm
  | sequential
  | random
deriving DecidableEq

/-- Outcome of a policy invocation. -/
inductive Decision
  | allocated (cell : Nat × Nat) (score : Rat)
  | rejected
deriving DecidableEq

namespace PolicyEngine

/-- Modelled from the spec (section 4.3; the policy implementations in
`utils/simulation_strategies.py` and `utils/parking_system.py` are not among
the available sources): `decide` validates the time window, then

* `sequential` takes the first cell of `free_cells` (bay-major order),
* `random` picks uniformly among `free_cells` via the injected random
  source, and
* `algorithm` (learned) takes the highest combined-score free cell, with
  the mandated exhaustive free-cell fallback and ascending tie-break.

Capacity exhaustion yields `Decision.rejected`; the only error is
`InvalidRequestError` for a malformed time window.  `decide` never mutates
the grid; the random state it was given is returned (advanced only when the
random variant consumed it). -/
def decide (variant : Variant) (adapter : ScoringAdapter) (rng : Nat)
    (r : VehicleInput) (g : OccupancyGrid) : Except AllocError (Decision × Nat) :=
  if validRequest r then
    match variant with
    | .sequential =>
      match (free_cells g).head? with
      | some c => .ok (.allocated c 1, rng)
      | none => .ok (.rejected, rng)
    | .random =>
      let fc := free_cells g
      if h : fc.length = 0 then .ok (.rejected, rng)
      else
        let rng2 := rngNext rng
        .ok (.allocated (fc.get ⟨rng2 % fc.length, Nat.mod_lt _ (Nat.pos_of_ne_zero h)⟩) 1,
          rng2)
    | .algorithm =>
      match chooseBest (adapter.combinedScore r g) (free_cells g) with
      | some c => .ok (.allocated c (adapter.combinedScore r g c), rng)
      | none => .ok (.rejected, rng)
  else .error .invalidRequest

end PolicyEngine

inductive OutcomeStatus
  | success
  | failed
deriving DecidableEq

/-- Per-vehicle outcome of the simulation runner (one entry of
`allocation_results`). -/
structure Outcome where
  vehicle_plate_num : String
  status : OutcomeStatus
  cell : Option (Nat × Nat)
  allocation_score : Option Rat
  allocation_time : Option DateTime
  error_message : Option String
deriving DecidableEq

/-- The reservation the runner records when it commits a decision. -/
def reservationOf (r : VehicleInput) : Reservation :=
  { vehicle_id := r.vehicle_plate_num
    arrival_time := r.arrival_time
    departure_time := r.departure_time
    priority_level := r.priority_level }

namespace SimulationRunner

/-- Modelled from the spec (section 4.4): one step of the runner — call
`decide`; on `Allocated` immediately commit with `occupy`; catch every
per-request failure (including a rejection for lack of capacity) and turn
it into a failed outcome carrying a message. -/
def step (variant : Variant) (adapter : ScoringAdapter) (g : OccupancyGrid)
    (rng : Nat) (r : VehicleInput) : Outcome × OccupancyGrid × Nat :=
  match PolicyEngine.decide variant adapter rng r g with
  | .error e =>
    ({ vehicle_plate_num := r.vehicle_plate_num, status := .failed, cell := none,
       allocation_score := none, allocation_time := none,
       error_message := some e.message }, g, rng)
  | .ok (.rejected, rng2) =>
    ({ vehicle_plate_num := r.vehicle_plate_num, status := .failed, cell := none,
       allocation_score := none, allocation_time := none,
       error_message := some "no free parking slot available" }, g, rng2)
  | .ok (.allocated c s, rng2) =>
    match g.occupy c (reservationOf r) with
    | .ok g2 =>
      ({ vehicle_plate_num := r.vehicle_plate_num, status := .success,
         cell := some c, allocation_score := some s,
         allocation_time := some r.arrival_time, error_message := none }, g2, rng2)
    | .error e =>
      ({ vehicle_plate_num := r.vehicle_plate_num, status := .failed, cell := none,
         allocation_score := none, allocation_time := none,
         error_message := some e.message }, g, rng2)

/-- Modelled from the spec (section 4.4): process the requests strictly in
input order, threading the grid and the random state; emit one outcome per
request. -/
def runAux (variant : Variant) (adapter : ScoringAdapter) :
    List VehicleInput → OccupancyGrid → Nat → List Outcome × OccupancyGrid × Nat
  | [], g, rng => ([], g, rng)
  | r :: rest, g, rng =>
    let st := step variant adapter g rng r
    let tail := runAux variant adapter rest st.2.1 st.2.2
    (st.1 :: tail.1, tail.2)

/-- A full simulation run: fresh empty grid, then the request batch. -/
def run (f : Facility) (variant : Variant) (adapter : ScoringAdapter)
    (seed : Nat) (reqs : List VehicleInput) : List Outcome :=
  (runAux variant adapter reqs (OccupancyGrid.empty f) seed).1

/-- A full simulation run, also returning the final grid and random state. -/
def runFull (f : Facility) (variant : Variant) (adapter : ScoringAdapter)
    (seed : Nat) (reqs : List VehicleInput) : List Outcome × OccupancyGrid × Nat :=
  runAux variant adapter reqs (OccupancyGrid.empty f) seed

end SimulationRunner

/-- Aggregate report over a batch (spec section 3, `SimulationResults` of
`models.models`; wall-clock processing time is observability only and is
not modelled). -/
structure SimulationReport where
  total_vehicles : Nat
  successful_allocations : Nat
  failed_allocations : Nat
  success_rate : Rat
  average_allocation_score : Rat
  allocation_results : List Outcome
deriving DecidableEq

/-- The scores of the successful outcomes, in order. -/
def successScores (outs : List Outcome) : List Rat :=
  (outs.filter fun o => o.status == .success).filterMap (·.allocation_score)

/-- Modelled from the spec (sections 3 and 4.4): aggregate a batch of
outcomes.  `average_allocation_score` is the mean over successful outcomes
only and is defined to be `0` when there is none (documented, never a
silent NaN); `success_rate` is `0` on an empty batch for the same reason. -/
def mkReport (outs : List Outcome) : SimulationReport :=
  let succ := outs.countP fun o => o.status == .success
  { total_vehicles := outs.length
    successful_allocations := succ
    failed_allocations := outs.countP fun o => o.status == .failed
    success_rate := (succ : Rat) / (outs.length : Rat)
    average_allocation_score :=
      if succ = 0 then 0 else (successScores outs).sum / (succ : Rat)
    allocation_results := outs }

/-- A persisted allocation row (`db.py` record as written by `app.py`);
`allocation_time`/`departure_time` are stored parsed
(`parse_datetime`). -/
structure AllocationRecord where
  vehicle_plate_num : String
  vehicle_plate_type : String
  vehicle_type : String
  bay_assigned : Nat
  slot_assigned : Nat
  allocation_score : Rat
  allocation_time : DateTime
  departure_time : DateTime
  priority_level : Nat
  is_active : Bool
deriving DecidableEq

/-- The stream of `datetime.now()` samples: the k-th call of `now()` during
a status computation observes `clock k` (epoch seconds). -/
def Clock := Nat → Int

/-- Whether one expiry check of the status renderers passes: the sampled
`now` is before the record departure and (for the per-strategy renderer,
`useActive = true`) the record is still active.  `get_parking_status`
(`app.py` lines 157, 177) checks only the departure;
`generate_parking_status_from_db` (lines 831, 852) also checks
`is_active`. -/
def recLive (useActive : Bool) (now : Int) (a : AllocationRecord) : Bool :=
  decide (now < a.departure_time.epochSeconds) && (!useActive || a.is_active)

/-- Embedding of the occupancy-marking loop (`app.py` lines 147-161 resp.
823-835): for each stored allocation, sample `now()` once (the i-th
allocation consumes clock sample i) and mark its 0-based cell occupied when
the check passes. -/
def markOccupied (useActive : Bool) (clock : Clock) (allocs : List AllocationRecord) :
    List (Nat × Nat) :=
  allocs.enum.filterMap fun p =>
    if recLive useActive (clock p.1) p.2 then
      some (p.2.bay_assigned - 1, p.2.slot_assigned - 1)
    else none

/-- Embedding of the per-cell allocation lookup (`app.py` lines 172-179
resp. 847-854): scan the stored allocations in order; on a `(bay, slot)`
match sample `now()` (advancing the clock counter `k`) and stop at the
first unexpired match; an expired match is skipped without stopping. -/
def lookupAlloc (useActive : Bool) (clock : Clock) (bay slot : Nat) :
    List AllocationRecord → Nat → Option AllocationRecord × Nat
  | [], k => (none, k)
  | a :: rest, k =>
    if a.bay_assigned = bay + 1 ∧ a.slot_assigned = slot + 1 then
      if recLive useActive (clock k) a then (some a, k + 1)
      else lookupAlloc useActive clock bay slot rest (k + 1)
    else lookupAlloc useActive clock bay slot rest k

/-- One slot entry of the facility-status report. -/
structure SlotStatus where
  slot_number : Nat
  is_occupied : Bool
  allocation : Option AllocationRecord
deriving DecidableEq

structure BayStatus where
  bay_number : Nat
  slots : List SlotStatus
deriving DecidableEq

/-- The facility-status report (`models.models.ParkingStatus`;
`occupancy_percentage` and `updated_at` are presentation-only and not
modelled). -/
structure ParkingStatus where
  bays : List BayStatus
  total_slots : Nat
  occupied_slots : Nat
  available_slots : Nat
deriving DecidableEq

/-- Embedding of the inner slot loop (`app.py` lines 166-187 resp.
841-862): one `SlotStatus` per slot index; the allocation lookup runs (and
consumes clock samples) only for occupied cells. -/
def buildSlots (useActive : Bool) (clock : Clock) (allocs : List AllocationRecord)
    (occ : List (Nat × Nat)) (bay : Nat) :
    List Nat → Nat → List SlotStatus × Nat
  | [], k => ([], k)
  | slot :: rest, k =>
    if occ.contains (bay, slot) then
      let la := lookupAlloc useActive clock bay slot allocs k
      let tail := buildSlots useActive clock allocs occ bay rest la.2
      ({ slot_number := slot + 1, is_occupied := true, allocation := la.1 } :: tail.1,
        tail.2)
    else
      let tail := buildSlots useActive clock allocs occ bay rest k
      ({ slot_number := slot + 1, is_occupied := false, allocation := none } :: tail.1,
        tail.2)

/-- Embedding of the outer bay loop (`app.py` lines 164-189 resp.
837-864). -/
def buildBays (useActive : Bool) (clock : Clock) (allocs : List AllocationRecord)
    (occ : List (Nat × Nat)) (slots_per_bay : Nat) :
    List Nat → Nat → List BayStatus × Nat
  | [], k => ([], k)
  | bay :: rest, k =>
    let bs := buildSlots useActive clock allocs occ bay (List.range slots_per_bay) k
    let tail := buildBays useActive clock allocs occ slots_per_bay rest bs.2
    ({ bay_number := bay + 1, slots := bs.1 } :: tail.1, tail.2)

/-- Embedding of the status renderers of `app.py`: `useActive = false` is
`get_parking_status` (lines 134-204), `useActive = true` is
`generate_parking_status_from_db` (lines 808-879).  Phase one consumes one
clock sample per stored allocation; phase two starts at clock counter
`allocs.length` and threads it through the per-cell lookups. -/
def renderStatus (useActive : Bool) (f : Facility) (allocs : List AllocationRecord)
    (clock : Clock) : ParkingStatus :=
  let occ := markOccupied useActive clock allocs
  let bays := buildBays useActive clock allocs occ f.slots_per_bay
    (List.range f.num_bays) allocs.length
  let occupied := (bays.1.flatMap (·.slots)).countP (·.is_occupied)
  { bays := bays.1
    total_slots := f.capacity
    occupied_slots := occupied
    available_slots := f.capacity - occupied }

/-- `get_parking_status` (`app.py` lines 134-204): the main status
endpoint, expiry check on departure time only. -/
def get_parking_status (f : Facility) (allocs : List AllocationRecord)
    (clock : Clock) : ParkingStatus :=
  renderStatus false f allocs clock

/-- `generate_parking_status_from_db` (`app.py` lines 808-879): per-strategy
status, expiry check on departure time and the `is_active` flag. -/
def generate_parking_status_from_db (f : Facility) (allocs : List AllocationRecord)
    (clock : Clock) : ParkingStatus :=
  renderStatus true f allocs clock

/-- The slot entry of a status report at 0-based `(bay, slot)`. -/
def slotAt (st : ParkingStatus) (bay slot : Nat) : Option SlotStatus :=
  (st.bays.get? bay).bind fun b => b.slots.get? slot

/-- The four TinyDB allocation tables of `app.py` (lines 57-68): the main
store plus one store per strategy. -/
structure Stores where
  main : List AllocationRecord
  seqStore : List AllocationRecord
  randStore : List AllocationRecord
  algStore : List AllocationRecord
deriving DecidableEq

/-- `strategy_db_map` (`app.py` lines 543-549): the store a strategy name
selects. -/
def getStore : Variant → Stores → List AllocationRecord
  | .sequential, st => st.seqStore
  | .random, st => st.randStore
  | .algorithm, st => st.algStore

def setStore : Variant → List AllocationRecord → Stores → Stores
  | .sequential, l, st => { st with seqStore := l }
  | .random, l, st => { st with randStore := l }
  | .algorithm, l, st => { st with algStore := l }

/-- The record `simulate_parking_allocation` persists for one successful
outcome (`app.py` lines 561-594): outcome fields plus the request fields
looked up by plate number — `next(v for v in vehicles_list if
v["vehicle_plate_num"] == ...)` takes the first match.  A failed outcome
persists nothing. -/
def successRecord (vehicles : List VehicleInput) (o : Outcome) :
    Option AllocationRecord :=
  match o.status with
  | .failed => none
  | .success =>
    match vehicles.find? (fun v => v.vehicle_plate_num == o.vehicle_plate_num) with
    | none => none
    | some v =>
      some { vehicle_plate_num := o.vehicle_plate_num
             vehicle_plate_type := v.vehicle_plate_type
             vehicle_type := v.vehicle_type
             bay_assigned := (o.cell.getD (0, 0)).1 + 1
             slot_assigned := (o.cell.getD (0, 0)).2 + 1
             allocation_score := o.allocation_score.getD 0
             allocation_time := (o.allocation_time.getD v.arrival_time)
             departure_time := v.departure_time
             priority_level := v.priority_level
             is_active := true }

/-- One iteration of the result-saving loop of
`simulate_parking_allocation` (`app.py` lines 560-594): a successful
outcome appends its record to the chosen strategy store, a failed one
stores nothing. -/
def saveSuccess (vehicles : List VehicleInput) (strat : Variant)
    (acc : Stores) (o : Outcome) : Stores :=
  match successRecord vehicles o with
  | some rec0 => setStore strat (getStore strat acc ++ [rec0]) acc
  | none => acc

/-- Embedding of `simulate_parking_allocation` (`app.py` lines 522-625)
after strategy validation: truncate the chosen strategy store (line 552),
run the simulation on a fresh grid, append one record per successful
outcome to that store (lines 558-594), and return the aggregate report. -/
def simulate_parking_allocation (f : Facility) (adapter : ScoringAdapter)
    (seed : Nat) (st : Stores) (vehicles : List VehicleInput) (strat : Variant) :
    Stores × SimulationReport :=
  let st1 := setStore strat [] st
  let outs := SimulationRunner.run f strat adapter seed vehicles
  let st2 := outs.foldl (saveSuccess vehicles strat) st1
  (st2, mkReport outs)

/-- The sequence of cells a run chose, in order of allocation. -/
def chosenCells (outs : List Outcome) : List (Nat × Nat) :=
  outs.filterMap (·.cell)

/-- Time windows of two requests do not overlap. -/
def disjointWindows (r1 r2 : VehicleInput) : Prop :=
  r1.departure_time.epochSeconds ≤ r2.arrival_time.epochSeconds ∨
    r2.departure_time.epochSeconds ≤ r1.arrival_time.epochSeconds

instance : DecidableRel disjointWindows := fun r1 r2 => by
  unfold disjointWindows
  infer_instance

/-- A constant scoring adapter, for concrete evaluations. -/
def dAdapter : ScoringAdapter := ⟨fun _ _ _ => 1⟩

/-- A concrete vehicle with a one-hour window starting at epoch second
`7200 * n`. -/
def sampleVehicle (n : Nat) : VehicleData :=
  { vehicle_plate_num := "V" ++ toString n
    vehicle_plate_type := "private"
    vehicle_type := "car"
    arrival_time := ⟨7200 * n⟩
    departure_time := ⟨7200 * n + 3600⟩
    priority_level := 1 }

def sampleReq (n : Nat) : VehicleInput :=
  buildVehicleInput (sampleVehicle n)

/-- A degenerate vehicle whose arrival equals its departure. -/
def badVehicle : VehicleData :=
  { vehicle_plate_num := "BAD"
    vehicle_plate_type := "private"
    vehicle_type := "car"
    arrival_time := ⟨3600⟩
    departure_time := ⟨3600⟩
    priority_level := 1 }

def badReq : VehicleInput := buildVehicleInput badVehicle

/-- A fully occupied one-cell facility. -/
def fullGrid : OccupancyGrid :=
  ⟨⟨1, 1⟩, [((0, 0), reservationOf (sampleReq 0))]⟩

/-- A concrete stored allocation on bay 1, slot 1, departing at epoch
second 100. -/
def expiredRec : AllocationRecord :=
  { vehicle_plate_num := "ABC123", vehicle_plate_type := "private",
    vehicle_type := "car", bay_assigned := 1, slot_assigned := 1,
    allocation_score := 1, allocation_time := ⟨0⟩,
    departure_time := ⟨100⟩, priority_level := 1, is_active := true }

/-- A clock that advances from 99 to 100 between the first
`datetime.now()` call (the occupancy check) and every later one. -/
def straddlingClock : Clock := fun k => if k = 0 then 99 else 100

end SmartParking

namespace SmartParking

/-- C8: for every vehicle request the derived features are
`duration_hours` = the time window expressed in hours, `day_of_week` = the
weekday of the arrival time, `hour_of_day` = the hour component of the
arrival time, and the supplied fields are copied unchanged. -/
theorem buildVehicleInput_derived_features (v : VehicleData) :
    (buildVehicleInput v).duration_hours = hoursBetween v.arrival_time v.departure_time ∧
    (buildVehicleInput v).day_of_week = v.arrival_time.weekday ∧
    (buildVehicleInput v).hour_of_day = v.arrival_time.hour ∧
    (buildVehicleInput v).vehicle_plate_num = v.vehicle_plate_num ∧
    (buildVehicleInput v).vehicle_plate_type = v.vehicle_plate_type ∧
    (buildVehicleInput v).vehicle_type = v.vehicle_type ∧
    (buildVehicleInput v).arrival_time = v.arrival_time ∧
    (buildVehicleInput v).departure_time = v.departure_time ∧
    (buildVehicleInput v).priority_level = v.priority_level := by
  refine ⟨rfl, rfl, rfl, rfl, rfl, rfl, rfl, rfl, rfl⟩

/-- C4: for every policy variant and every well-formed request, when the
grid has no free cell `decide` returns a `Rejected` decision (it does not
signal an error): capacity exhaustion is an expected outcome. -/
theorem decide_rejects_when_exhausted (variant : Variant) (adapter : ScoringAdapter)
    (rng : Nat) (r : VehicleInput) (g : OccupancyGrid)
    (hval : validRequest r = true) (hfull : free_cells g = []) :
    PolicyEngine.decide variant adapter rng r g = .ok (.rejected, rng) := by
  cases variant <;> simp [PolicyEngine.decide, hval, hfull, chooseBest]

/-- Witness for C4: a well-formed request against a fully occupied
one-cell facility is rejected, not an error. -/
theorem decide_rejects_when_exhausted_witness :
    PolicyEngine.decide .sequential dAdapter 0 (sampleReq 1) fullGrid
      = .ok (.rejected, 0) :=
  decide_rejects_when_exhausted .sequential dAdapter 0 (sampleReq 1) fullGrid
    (by decide) (by decide)

/-- C5: for every policy variant, `decide` fails with `InvalidRequestError`
exactly when the arrival time is not strictly before the departure time; a
well-formed request never produces an error. -/
theorem decide_validates_time_window (variant : Variant) (adapter : ScoringAdapter)
    (rng : Nat) (r : VehicleInput) (g : OccupancyGrid) :
    (validRequest r = false →
      PolicyEngine.decide variant adapter rng r g = .error .invalidRequest) ∧
    (validRequest r = true →
      ∃ res, PolicyEngine.decide variant adapter rng r g = .ok res) := by
  constructor
  · intro h
    cases variant <;> simp [PolicyEngine.decide, h]
  · intro h
    cases variant
    · cases hc : chooseBest (adapter.combinedScore r g) (free_cells g) with
      | none => exact ⟨(.rejected, rng), by simp [PolicyEngine.decide, h, hc]⟩
      | some c =>
        exact ⟨(.allocated c (adapter.combinedScore r g c), rng),
          by simp [PolicyEngine.decide, h, hc]⟩
    · cases hc : (free_cells g).head? with
      | none => exact ⟨(.rejected, rng), by simp [PolicyEngine.decide, h, hc]⟩
      | some c => exact ⟨(.allocated c 1, rng), by simp [PolicyEngine.decide, h, hc]⟩
    · by_cases hl : (free_cells g).length = 0
      · exact ⟨(.rejected, rng), by simp [PolicyEngine.decide, h, hl]⟩
      · refine ⟨(.allocated ((free_cells g).get
          ⟨rngNext rng % (free_cells g).length, Nat.mod_lt _ (Nat.pos_of_ne_zero hl)⟩) 1,
          rngNext rng), ?_⟩
        simp [PolicyEngine.decide, h, hl]

/-- Witness for C5: the degenerate request (arrival = departure) fails with
`InvalidRequestError`, and a well-formed request yields a decision. -/
theorem decide_validates_time_window_witness :
    PolicyEngine.decide .sequential dAdapter 0 badReq fullGrid
      = .error .invalidRequest ∧
    (∃ res, PolicyEngine.decide .random dAdapter 0 (sampleReq 1) fullGrid
      = .ok res) :=
  ⟨(decide_validates_time_window .sequential dAdapter 0 badReq fullGrid).1 (by decide),
    (decide_validates_time_window .random dAdapter 0 (sampleReq 1) fullGrid).2 (by decide)⟩

/-- C9: the random policy is reproducible — two runs with the same seed and
the same request sequence choose identical sequences of cells. -/
theorem random_policy_reproducible (f : Facility) (adapter : ScoringAdapter)
    (s1 s2 : Nat) (reqs1 reqs2 : List VehicleInput)
    (hs : s1 = s2) (hr : reqs1 = reqs2) :
    chosenCells (SimulationRunner.run f .random adapter s1 reqs1)
      = chosenCells (SimulationRunner.run f .random adapter s2 reqs2) := by
  subst hs
  subst hr
  rfl

/-- Witness for C9: two equal-seed runs of the random policy on a concrete
two-request batch choose the same cells. -/
theorem random_policy_reproducible_witness :
    chosenCells (SimulationRunner.run ⟨2, 2⟩ .random dAdapter 42 [sampleReq 1, sampleReq 2])
      = chosenCells (SimulationRunner.run ⟨2, 2⟩ .random dAdapter 42 [sampleReq 1, sampleReq 2]) :=
  random_policy_reproducible ⟨2, 2⟩ dAdapter 42 42 [sampleReq 1, sampleReq 2]
    [sampleReq 1, sampleReq 2] rfl rfl

lemma allCells_nodup (f : Facility) : (allCells f).Nodup := by
  unfold allCells
  rw [List.nodup_flatMap]
  constructor
  · intro b _
    exact List.Nodup.map (fun s1 s2 h => congrArg Prod.snd h) (List.nodup_range _)
  · refine List.Pairwise.imp ?_ (List.pairwise_lt_range _)
    intro b1 b2 hlt c hc1 hc2
    rw [List.mem_map] at hc1 hc2
    obtain ⟨s1, _, rfl⟩ := hc1
    obtain ⟨s2, _, h2⟩ := hc2
    have : b2 = b1 := congrArg Prod.fst h2
    omega

lemma allCells_length (f : Facility) : (allCells f).length = f.capacity := by
  unfold allCells Facility.capacity
  rw [List.length_flatMap]
  simp [Function.comp_def, List.map_const]

lemma filter_not_mem_take {α : Type} [DecidableEq α] :
    ∀ (L : List α), L.Nodup → ∀ k,
    L.filter (fun x => decide (x ∉ L.take k)) = L.drop k := by
  intro L
  induction L with
  | nil => intro _ k; simp
  | cons a t ih =>
    intro hnd k
    cases k with
    | zero => simp
    | succ j =>
      have hat : a ∉ t := (List.nodup_cons.mp hnd).1
      simp only [List.take_succ_cons, List.drop_succ_cons, List.filter_cons]
      rw [if_neg (by simp)]
      rw [List.filter_congr (q := fun x => decide (x ∉ t.take j)) ?_]
      · exact ih (List.nodup_cons.mp hnd).2 j
      · intro x hx
        have hxa : x ≠ a := fun h => hat (h ▸ hx)
        simp [List.mem_cons, hxa]

lemma free_cells_of_take (f : Facility) (g : OccupancyGrid) (k : Nat)
    (hf : g.facility = f) (hocc : g.occCells = (allCells f).take k) :
    free_cells g = (allCells f).drop k := by
  unfold free_cells OccupancyGrid.is_free
  rw [hf, hocc]
  rw [List.filter_congr (fun x _ => decide_eq_decide.mpr Iff.rfl)]
  exact filter_not_mem_take (allCells f) (allCells_nodup f) k

lemma getElem_not_mem_take {α : Type} (L : List α) (hnd : L.Nodup) (k : Nat)
    (hk : k < L.length) : L[k] ∉ L.take k := by
  intro hmem
  have hdrop : L[k] ∈ L.drop k := by
    rw [← List.getElem_cons_drop L k hk]
    exact List.mem_cons_self _ _
  exact List.disjoint_take_drop hnd (le_refl k) hmem hdrop

lemma seq_runAux_inv (adapter : ScoringAdapter) (f : Facility) :
    ∀ (reqs : List VehicleInput) (k : Nat) (g : OccupancyGrid) (rng : Nat),
    g.facility = f → g.occCells = (allCells f).take k →
    (∀ r ∈ reqs, validRequest r = true) →
    k + reqs.length ≤ f.capacity →
    (∀ o ∈ (SimulationRunner.runAux .sequential adapter reqs g rng).1,
      o.status = .success) ∧
    chosenCells (SimulationRunner.runAux .sequential adapter reqs g rng).1
      = ((allCells f).drop k).take reqs.length ∧
    ((SimulationRunner.runAux .sequential adapter reqs g rng).2.1).occCells
      = (allCells f).take (k + reqs.length) := by
  intro reqs
  induction reqs with
  | nil =>
    intro k g rng hf hocc _ _
    refine ⟨by intro o ho; simp [SimulationRunner.runAux] at ho, by simp [chosenCells, SimulationRunner.runAux], ?_⟩
    simpa [SimulationRunner.runAux] using hocc
  | cons r rest ih =>
    intro k g rng hf hocc hval hcap
    have hk : k < (allCells f).length := by
      rw [allCells_length]
      simp only [List.length_cons] at hcap
      omega
    have hdropk : (allCells f).drop k = (allCells f)[k] :: (allCells f).drop (k + 1) :=
      (List.getElem_cons_drop _ k hk).symm
    have hvr : validRequest r = true := hval r (List.mem_cons_self r rest)
    have hdec : PolicyEngine.decide .sequential adapter rng r g
        = .ok (.allocated (allCells f)[k] 1, rng) := by
      have hbranch : PolicyEngine.decide .sequential adapter rng r g
          = if validRequest r then
              (match (free_cells g).head? with
               | some c => .ok (.allocated c 1, rng)
               | none => .ok (.rejected, rng))
            else .error .invalidRequest := rfl
      rw [hbranch, if_pos hvr, free_cells_of_take f g k hf hocc, hdropk]
      rfl
    have hfree : g.is_free (allCells f)[k] = true := by
      unfold OccupancyGrid.is_free
      rw [hocc]
      exact decide_eq_true (getElem_not_mem_take (allCells f) (allCells_nodup f) k hk)
    have hoccupy : g.occupy (allCells f)[k] (reservationOf r)
        = .ok { g with occ := g.occ ++ [((allCells f)[k], reservationOf r)] } := by
      unfold OccupancyGrid.occupy
      rw [if_pos hfree]
    have hg2occ : ({ g with occ := g.occ ++ [((allCells f)[k], reservationOf r)] }
        : OccupancyGrid).occCells = (allCells f).take (k + 1) := by
      unfold OccupancyGrid.occCells
      simp only [List.map_append, List.map_cons, List.map_nil]
      rw [show (g.occ.map Prod.fst) = g.occCells from rfl, hocc]
      rw [← List.take_concat_get (allCells f) k hk, List.concat_eq_append]
    have hstep : SimulationRunner.step .sequential adapter g rng r
        = ({ vehicle_plate_num := r.vehicle_plate_num, status := .success,
             cell := some (allCells f)[k], allocation_score := some 1,
             allocation_time := some r.arrival_time, error_message := none },
           { g with occ := g.occ ++ [((allCells f)[k], reservationOf r)] }, rng) := by
      simp [SimulationRunner.step, hdec, hoccupy]
    obtain ⟨ih1, ih2, ih3⟩ := ih (k + 1)
      { g with occ := g.occ ++ [((allCells f)[k], reservationOf r)] } rng
      hf hg2occ (fun x hx => hval x (List.mem_cons_of_mem r hx))
      (by simp only [List.length_cons] at hcap; omega)
    refine ⟨?_, ?_, ?_⟩
    · intro o ho
      simp only [SimulationRunner.runAux, hstep, List.mem_cons] at ho
      rcases ho with rfl | ho
      · rfl
      · exact ih1 o ho
    · simp only [SimulationRunner.runAux, hstep, chosenCells, List.filterMap_cons]
      simp only [chosenCells] at ih2
      rw [ih2, hdropk]
      rfl
    · simp only [SimulationRunner.runAux, hstep]
      rw [ih3]
      congr 1
      simp only [List.length_cons]
      omega

/-- C1: for every sequence of well-formed, pairwise non-overlapping
requests whose length does not exceed the facility capacity, the sequential
policy allocates every request, no two requests are assigned the same
`(bay, slot)` cell, and the resulting grid holds at most one reservation
per cell. -/
theorem sequential_no_double_booking (f : Facility) (adapter : ScoringAdapter)
    (seed : Nat) (reqs : List VehicleInput)
    (hval : ∀ r ∈ reqs, validRequest r = true)
    (hsep : reqs.Pairwise disjointWindows)
    (hcap : reqs.length ≤ f.capacity) :
    (∀ o ∈ SimulationRunner.run f .sequential adapter seed reqs,
      o.status = .success) ∧
    (chosenCells (SimulationRunner.run f .sequential adapter seed reqs)).Nodup ∧
    ((SimulationRunner.runFull f .sequential adapter seed reqs).2.1).occCells.Nodup := by
  obtain ⟨h1, h2, h3⟩ := seq_runAux_inv adapter f reqs 0 (OccupancyGrid.empty f) seed
    rfl (by simp [OccupancyGrid.occCells, OccupancyGrid.empty]) hval (by simpa using hcap)
  refine ⟨h1, ?_, ?_⟩
  · unfold SimulationRunner.run
    rw [h2]
    exact List.Nodup.sublist (List.take_sublist _ _)
      (List.Nodup.sublist (List.drop_sublist _ _) (allCells_nodup f))
  · unfold SimulationRunner.runFull
    rw [h3]
    exact List.Nodup.sublist (List.take_sublist _ _) (allCells_nodup f)

/-- Witness for C1: four disjoint-window requests on a 2-by-2 facility are
all allocated to pairwise distinct cells. -/
theorem sequential_no_double_booking_witness :
    (∀ o ∈ SimulationRunner.run ⟨2, 2⟩ .sequential dAdapter 0
      [sampleReq 1, sampleReq 2, sampleReq 3, sampleReq 4], o.status = .success) ∧
    (chosenCells (SimulationRunner.run ⟨2, 2⟩ .sequential dAdapter 0
      [sampleReq 1, sampleReq 2, sampleReq 3, sampleReq 4])).Nodup ∧
    ((SimulationRunner.runFull ⟨2, 2⟩ .sequential dAdapter 0
      [sampleReq 1, sampleReq 2, sampleReq 3, sampleReq 4]).2.1).occCells.Nodup :=
  sequential_no_double_booking ⟨2, 2⟩ dAdapter 0
    [sampleReq 1, sampleReq 2, sampleReq 3, sampleReq 4]
    (by decide) (by decide) (by decide)

lemma step_outcome_basic (variant : Variant) (adapter : ScoringAdapter)
    (g : OccupancyGrid) (rng : Nat) (r : VehicleInput) :
    ((SimulationRunner.step variant adapter g rng r).1).vehicle_plate_num
        = r.vehicle_plate_num ∧
    (((SimulationRunner.step variant adapter g rng r).1).status = .failed →
      ((SimulationRunner.step variant adapter g rng r).1).error_message.isSome = true) ∧
    (((SimulationRunner.step variant adapter g rng r).1).status = .success →
      ((SimulationRunner.step variant adapter g rng r).1).allocation_score.isSome = true) := by
  cases hd : PolicyEngine.decide variant adapter rng r g with
  | error e => simp [SimulationRunner.step, hd]
  | ok res =>
    obtain ⟨d, rng2⟩ := res
    cases d with
    | rejected => simp [SimulationRunner.step, hd]
    | allocated c s =>
      cases ho : g.occupy c (reservationOf r) with
      | ok g2 => simp [SimulationRunner.step, hd, ho]
      | error e => simp [SimulationRunner.step, hd, ho]

lemma runAux_map_plate (variant : Variant) (adapter : ScoringAdapter)
    (reqs : List VehicleInput) : ∀ (g : OccupancyGrid) (rng : Nat),
    ((SimulationRunner.runAux variant adapter reqs g rng).1).map (·.vehicle_plate_num)
      = reqs.map (·.vehicle_plate_num) := by
  induction reqs with
  | nil => intro g rng; rfl
  | cons r rest ih =>
    intro g rng
    simp only [SimulationRunner.runAux, List.map_cons]
    exact congrArg₂ _ (step_outcome_basic variant adapter g rng r).1 (ih _ _)

lemma runAux_length (variant : Variant) (adapter : ScoringAdapter)
    (reqs : List VehicleInput) (g : OccupancyGrid) (rng : Nat) :
    ((SimulationRunner.runAux variant adapter reqs g rng).1).length = reqs.length := by
  have h := congrArg List.length (runAux_map_plate variant adapter reqs g rng)
  simpa using h

lemma runAux_outcome_mem (variant : Variant) (adapter : ScoringAdapter)
    (reqs : List VehicleInput) : ∀ (g : OccupancyGrid) (rng : Nat)
    (o : Outcome), o ∈ (SimulationRunner.runAux variant adapter reqs g rng).1 →
    (o.status = .failed → o.error_message.isSome = true) ∧
    (o.status = .success → o.allocation_score.isSome = true) := by
  induction reqs with
  | nil => intro g rng o ho; simp [SimulationRunner.runAux] at ho
  | cons r rest ih =>
    intro g rng o ho
    simp only [SimulationRunner.runAux, List.mem_cons] at ho
    rcases ho with rfl | ho
    · exact ⟨(step_outcome_basic variant adapter g rng r).2.1,
        (step_outcome_basic variant adapter g rng r).2.2⟩
    · exact ih _ _ o ho

/-- C2: the batch runner always completes with exactly one outcome per
input request, in input order (the outcome sequence carries the requests'
plate numbers in input order), and any per-request failure is recorded as a
failed outcome carrying a message — no request is skipped. -/
theorem runner_one_outcome_per_request (f : Facility) (variant : Variant)
    (adapter : ScoringAdapter) (seed : Nat) (reqs : List VehicleInput) :
    (SimulationRunner.run f variant adapter seed reqs).length = reqs.length ∧
    (SimulationRunner.run f variant adapter seed reqs).map (·.vehicle_plate_num)
      = reqs.map (·.vehicle_plate_num) ∧
    ∀ o ∈ SimulationRunner.run f variant adapter seed reqs,
      o.status = .failed → o.error_message.isSome = true := by
  refine ⟨runAux_length variant adapter reqs _ seed,
    runAux_map_plate variant adapter reqs _ seed, ?_⟩
  intro o ho
  exact (runAux_outcome_mem variant adapter reqs _ seed o ho).1

/-- Witness for C2: a concrete three-request batch holding a malformed
request in the middle still yields one outcome per request, in order, and
the malformed request's outcome carries a message. -/
theorem runner_one_outcome_per_request_witness :
    (SimulationRunner.run ⟨2, 2⟩ .sequential dAdapter 0
      [sampleReq 1, badReq, sampleReq 2]).length = 3 ∧
    ((SimulationRunner.run ⟨2, 2⟩ .sequential dAdapter 0
      [sampleReq 1, badReq, sampleReq 2]).get? 1).map (·.status)
        = some OutcomeStatus.failed :=
  ⟨(runner_one_outcome_per_request ⟨2, 2⟩ .sequential dAdapter 0
      [sampleReq 1, badReq, sampleReq 2]).1, by decide⟩

lemma length_filterMap_of_isSome {α β : Type} (f : α → Option β) :
    ∀ (l : List α), (∀ x ∈ l, (f x).isSome = true) →
    (l.filterMap f).length = l.length := by
  intro l
  induction l with
  | nil => intro _; rfl
  | cons a t ih =>
    intro h
    have ha := h a (List.mem_cons_self a t)
    obtain ⟨b, hb⟩ := Option.isSome_iff_exists.mp ha
    simp [List.filterMap_cons, hb, ih fun x hx => h x (List.mem_cons_of_mem a hx)]

lemma successScores_length (f : Facility) (variant : Variant)
    (adapter : ScoringAdapter) (seed : Nat) (reqs : List VehicleInput) :
    (successScores (SimulationRunner.run f variant adapter seed reqs)).length
      = (SimulationRunner.run f variant adapter seed reqs).countP
          (fun o => o.status == .success) := by
  unfold successScores
  rw [List.countP_eq_length_filter]
  apply length_filterMap_of_isSome
  intro o ho
  rw [List.mem_filter] at ho
  exact (runAux_outcome_mem variant adapter reqs _ seed o ho.1).2
    (by simpa using ho.2)

/-- C3: the aggregate report of a batch run satisfies
`successful + failed = total_vehicles`,
`success_rate = successful / total_vehicles`, and `average_score` equals
the arithmetic mean of the scores of the successful outcomes only, with
the documented value `0` when there is no successful outcome. -/
theorem report_aggregates (f : Facility) (variant : Variant)
    (adapter : ScoringAdapter) (seed : Nat) (reqs : List VehicleInput) :
    (mkReport (SimulationRunner.run f variant adapter seed reqs)).successful_allocations
        + (mkReport (SimulationRunner.run f variant adapter seed reqs)).failed_allocations
      = (mkReport (SimulationRunner.run f variant adapter seed reqs)).total_vehicles ∧
    (mkReport (SimulationRunner.run f variant adapter seed reqs)).success_rate
      = ((mkReport (SimulationRunner.run f variant adapter seed reqs)).successful_allocations : Rat)
        / ((mkReport (SimulationRunner.run f variant adapter seed reqs)).total_vehicles : Rat) ∧
    ((mkReport (SimulationRunner.run f variant adapter seed reqs)).successful_allocations = 0 →
      (mkReport (SimulationRunner.run f variant adapter seed reqs)).average_allocation_score = 0) ∧
    ((mkReport (SimulationRunner.run f variant adapter seed reqs)).successful_allocations ≠ 0 →
      (mkReport (SimulationRunner.run f variant adapter seed reqs)).average_allocation_score
        = (successScores (SimulationRunner.run f variant adapter seed reqs)).sum
          / ((successScores (SimulationRunner.run f variant adapter seed reqs)).length : Rat)) := by
  refine ⟨?_, rfl, ?_, ?_⟩
  · have hcount := List.length_eq_countP_add_countP
      (fun o : Outcome => o.status == OutcomeStatus.success)
      (SimulationRunner.run f variant adapter seed reqs)
    have hcongr : (SimulationRunner.run f variant adapter seed reqs).countP
        (fun o => decide ¬(o.status == OutcomeStatus.success) = true)
        = (SimulationRunner.run f variant adapter seed reqs).countP
          (fun o => o.status == OutcomeStatus.failed) := by
      apply List.countP_congr
      intro o _
      cases h : o.status <;> simp [h]
    rw [hcongr] at hcount
    simp only [mkReport]
    omega
  · intro h
    simp only [mkReport] at h ⊢
    rw [if_pos h]
  · intro h
    rw [successScores_length f variant adapter seed reqs]
    simp only [mkReport] at h ⊢
    rw [if_neg h]

lemma not_mem_markOccupied (useActive : Bool) (clock : Clock)
    (allocs : List AllocationRecord) (b s : Nat)
    (hexp : ∀ a ∈ allocs, a.bay_assigned = b + 1 → a.slot_assigned = s + 1 →
      ∀ k, a.departure_time.epochSeconds ≤ clock k)
    (hwf : ∀ a ∈ allocs, 1 ≤ a.bay_assigned ∧ 1 ≤ a.slot_assigned) :
    (b, s) ∉ markOccupied useActive clock allocs := by
  intro hmem
  unfold markOccupied at hmem
  rw [List.mem_filterMap] at hmem
  obtain ⟨p, hp, heq⟩ := hmem
  by_cases hlive : recLive useActive (clock p.1) p.2 = true
  · rw [if_pos hlive] at heq
    have hpa : p.2 ∈ allocs := List.snd_mem_of_mem_enum hp
    have hcell : p.2.bay_assigned - 1 = b ∧ p.2.slot_assigned - 1 = s := by
      constructor
      · exact congrArg Prod.fst (Option.some.inj heq)
      · exact congrArg Prod.snd (Option.some.inj heq)
    obtain ⟨hb1, hs1⟩ := hwf p.2 hpa
    have hbay : p.2.bay_assigned = b + 1 := by omega
    have hslot : p.2.slot_assigned = s + 1 := by omega
    have hle := hexp p.2 hpa hbay hslot p.1
    unfold recLive at hlive
    rw [Bool.and_eq_true, decide_eq_true_eq] at hlive
    omega
  · rw [if_neg hlive] at heq
    exact Option.noConfusion heq

lemma buildSlots_get_free (useActive : Bool) (clock : Clock)
    (allocs : List AllocationRecord) (occ : List (Nat × Nat)) (bay : Nat) :
    ∀ (slots : List Nat) (k i : Nat) (hi : i < slots.length),
    occ.contains (bay, slots[i]) = false →
    ((buildSlots useActive clock allocs occ bay slots k).1).get? i
      = some { slot_number := slots[i] + 1, is_occupied := false, allocation := none } := by
  intro slots
  induction slots with
  | nil => intro k i hi; simp at hi
  | cons slot rest ih =>
    intro k i hi hocc
    cases i with
    | zero =>
      simp only [List.getElem_cons_zero] at hocc
      have hnm : (bay, slot) ∉ occ := by simpa using hocc
      simp [buildSlots, hnm]
    | succ j =>
      simp only [List.getElem_cons_succ] at hocc
      have hj : j < rest.length := by simpa using hi
      by_cases hc : occ.contains (bay, slot) = true
      · simp only [buildSlots, if_pos hc, List.get?_cons_succ]
        exact ih _ j hj hocc
      · simp only [buildSlots, if_neg hc, List.get?_cons_succ]
        exact ih _ j hj hocc

lemma buildBays_get (useActive : Bool) (clock : Clock)
    (allocs : List AllocationRecord) (occ : List (Nat × Nat)) (spb : Nat) :
    ∀ (bays : List Nat) (k i : Nat) (hi : i < bays.length),
    ∃ k2, ((buildBays useActive clock allocs occ spb bays k).1).get? i
      = some { bay_number := bays[i] + 1,
               slots := (buildSlots useActive clock allocs occ bays[i]
                 (List.range spb) k2).1 } := by
  intro bays
  induction bays with
  | nil => intro k i hi; simp at hi
  | cons bay rest ih =>
    intro k i hi
    cases i with
    | zero => exact ⟨k, rfl⟩
    | succ j =>
      have hj : j < rest.length := by simpa using hi
      obtain ⟨k2, hk2⟩ := ih
        (buildSlots useActive clock allocs occ bay (List.range spb) k).2 j hj
      exact ⟨k2, by simpa only [buildBays, List.get?_cons_succ] using hk2⟩

/-- C6: for both facility-status renderers, a cell all of whose stored
reservations have departed by every observed current time is reported as
free with its allocation omitted, even though `release` was never called;
the renderer is total on such inputs (it returns a report rather than
raising). -/
theorem status_reports_expired_cell_free (useActive : Bool) (f : Facility)
    (allocs : List AllocationRecord) (clock : Clock) (b s : Nat)
    (hb : b < f.num_bays) (hs : s < f.slots_per_bay)
    (hexp : ∀ a ∈ allocs, a.bay_assigned = b + 1 → a.slot_assigned = s + 1 →
      ∀ k, a.departure_time.epochSeconds ≤ clock k)
    (hwf : ∀ a ∈ allocs, 1 ≤ a.bay_assigned ∧ 1 ≤ a.slot_assigned) :
    slotAt (renderStatus useActive f allocs clock) b s
      = some { slot_number := s + 1, is_occupied := false, allocation := none } := by
  have hnot := not_mem_markOccupied useActive clock allocs b s hexp hwf
  unfold slotAt renderStatus
  obtain ⟨k2, hk2⟩ := buildBays_get useActive clock allocs
    (markOccupied useActive clock allocs) f.slots_per_bay
    (List.range f.num_bays) allocs.length b (by simpa using hb)
  rw [List.getElem_range] at hk2
  rw [hk2]
  simp only [Option.some_bind]
  have hcontains : (markOccupied useActive clock allocs).contains (b, s) = false := by
    simpa using hnot
  have := buildSlots_get_free useActive clock allocs
    (markOccupied useActive clock allocs) b (List.range f.slots_per_bay) k2 s
    (by simpa using hs) (by rwa [List.getElem_range])
  rw [List.getElem_range] at this
  exact this

/-- Witness for C6: a single expired reservation on cell `(0, 0)` of the
4-by-10 facility is reported free with no allocation. -/
theorem status_reports_expired_cell_free_witness :
    slotAt (renderStatus false ⟨4, 10⟩ [expiredRec] (fun _ => 100)) 0 0
      = some { slot_number := 1, is_occupied := false, allocation := none } :=
  status_reports_expired_cell_free false ⟨4, 10⟩ [expiredRec]
    (fun _ => 100) 0 0 (by decide) (by decide)
    (by intro a ha h1 h2 k
        rcases List.mem_singleton.mp ha with rfl
        exact le_rfl)
    (by intro a ha
        rcases List.mem_singleton.mp ha with rfl
        exact ⟨by decide, by decide⟩)

/-- C7: the status computation does not capture a single `now` — `app.py`
calls `datetime.now()` separately inside the occupancy loop (line 156) and
inside the per-cell allocation lookup (line 176).  When the clock crosses a
reservation departure between the two calls, the same status result marks
the slot occupied yet omits its allocation — an outcome no single-`now`
computation produces on this input: with either single sample the result is
consistent (occupied with the allocation, or free without it). -/
theorem status_resamples_clock_inconsistency :
    slotAt (get_parking_status ⟨4, 10⟩ [expiredRec] straddlingClock) 0 0
      = some { slot_number := 1, is_occupied := true, allocation := none } ∧
    slotAt (get_parking_status ⟨4, 10⟩ [expiredRec] (fun _ => 99)) 0 0
      = some { slot_number := 1, is_occupied := true, allocation := some expiredRec } ∧
    slotAt (get_parking_status ⟨4, 10⟩ [expiredRec] (fun _ => 100)) 0 0
      = some { slot_number := 1, is_occupied := false, allocation := none } := by
  refine ⟨by decide, by decide, by decide⟩

/-- Witness for C3: on a concrete batch with one success and one failure
the report counts add up and the average is the mean of the success
scores. -/
theorem report_aggregates_witness :
    (mkReport (SimulationRunner.run ⟨2, 2⟩ .sequential dAdapter 0
        [sampleReq 1, badReq])).successful_allocations ≠ 0 ∧
    (mkReport (SimulationRunner.run ⟨2, 2⟩ .sequential dAdapter 0
        [sampleReq 1, badReq])).average_allocation_score
      = (successScores (SimulationRunner.run ⟨2, 2⟩ .sequential dAdapter 0
          [sampleReq 1, badReq])).sum
        / ((successScores (SimulationRunner.run ⟨2, 2⟩ .sequential dAdapter 0
          [sampleReq 1, badReq])).length : Rat) :=
  ⟨by decide,
    (report_aggregates ⟨2, 2⟩ .sequential dAdapter 0 [sampleReq 1, badReq]).2.2.2
      (by decide)⟩

lemma getStore_setStore_same (v : Variant) (l : List AllocationRecord) (st : Stores) :
    getStore v (setStore v l st) = l := by
  cases v <;> rfl

lemma getStore_setStore_other (v v2 : Variant) (hne : v2 ≠ v)
    (l : List AllocationRecord) (st : Stores) :
    getStore v2 (setStore v l st) = getStore v2 st := by
  cases v <;> cases v2 <;> first | rfl | exact absurd rfl hne

lemma main_setStore (v : Variant) (l : List AllocationRecord) (st : Stores) :
    (setStore v l st).main = st.main := by
  cases v <;> rfl

lemma saveLoop_spec (vehicles : List VehicleInput) (strat : Variant) :
    ∀ (outs : List Outcome) (st0 : Stores),
    getStore strat (outs.foldl (saveSuccess vehicles strat) st0)
      = getStore strat st0 ++ outs.filterMap (successRecord vehicles) ∧
    (outs.foldl (saveSuccess vehicles strat) st0).main = st0.main ∧
    ∀ v2, v2 ≠ strat →
      getStore v2 (outs.foldl (saveSuccess vehicles strat) st0) = getStore v2 st0 := by
  intro outs
  induction outs with
  | nil => intro st0; exact ⟨by simp, rfl, fun _ _ => rfl⟩
  | cons o rest ih =>
    intro st0
    rw [List.foldl_cons]
    cases hr : successRecord vehicles o with
    | some rec0 =>
      obtain ⟨ih1, ih2, ih3⟩ := ih (saveSuccess vehicles strat st0 o)
      have hupd : saveSuccess vehicles strat st0 o
          = setStore strat (getStore strat st0 ++ [rec0]) st0 := by
        unfold saveSuccess
        rw [hr]
      refine ⟨?_, ?_, ?_⟩
      · rw [ih1, hupd, getStore_setStore_same, List.filterMap_cons_some hr,
          List.append_assoc]
        rfl
      · rw [ih2, hupd, main_setStore]
      · intro v2 hne
        rw [ih3 v2 hne, hupd, getStore_setStore_other strat v2 hne]
    | none =>
      have hupd : saveSuccess vehicles strat st0 o = st0 := by
        unfold saveSuccess
        rw [hr]
      rw [hupd]
      obtain ⟨ih1, ih2, ih3⟩ := ih st0
      exact ⟨by rw [ih1, List.filterMap_cons_none hr], ih2, ih3⟩

lemma run_successRecord_isSome (f : Facility) (variant : Variant)
    (adapter : ScoringAdapter) (seed : Nat) (vehicles : List VehicleInput) :
    ∀ o ∈ SimulationRunner.run f variant adapter seed vehicles,
    (successRecord vehicles o).isSome = (o.status == OutcomeStatus.success) := by
  intro o ho
  cases hst : o.status with
  | failed => simp [successRecord, hst]
  | success =>
    have hplate : o.vehicle_plate_num ∈ vehicles.map (·.vehicle_plate_num) := by
      rw [← runAux_map_plate variant adapter vehicles (OccupancyGrid.empty f) seed]
      exact List.mem_map_of_mem _ ho
    rw [List.mem_map] at hplate
    obtain ⟨v, hv, hveq⟩ := hplate
    have hfind : (vehicles.find? (fun v2 => v2.vehicle_plate_num == o.vehicle_plate_num)).isSome := by
      rw [List.find?_isSome]
      exact ⟨v, hv, by simp [hveq]⟩
    obtain ⟨v2, hv2⟩ := Option.isSome_iff_exists.mp hfind
    simp [successRecord, hst, hv2]

lemma length_filterMap_countP {α β : Type} (f : α → Option β) (p : α → Bool) :
    ∀ l : List α, (∀ x ∈ l, (f x).isSome = p x) →
    (l.filterMap f).length = l.countP p := by
  intro l
  induction l with
  | nil => intro _; rfl
  | cons a t ih =>
    intro h
    have ha := h a (List.mem_cons_self a t)
    have ht := ih fun x hx => h x (List.mem_cons_of_mem a hx)
    cases hpa : p a with
    | true =>
      rw [hpa] at ha
      obtain ⟨b, hb⟩ := Option.isSome_iff_exists.mp ha
      rw [List.filterMap_cons_some hb, List.countP_cons_of_pos _ _ hpa]
      simp [ht]
    | false =>
      rw [hpa] at ha
      have hnone : f a = none := by
        cases hfa : f a with
        | none => rfl
        | some b => rw [hfa] at ha; simp at ha
      rw [List.filterMap_cons_none hnone, List.countP_cons_of_neg _ _ (by simp [hpa])]
      exact ht

/-- C10: the simulation endpoint truncates the chosen strategy store before
the run, so afterwards that store holds exactly the records of the requests
that succeeded in this run (one record per successful outcome, earlier
contents erased), while the other strategy stores and the main store are
unchanged. -/
theorem simulate_truncates_then_saves (f : Facility) (adapter : ScoringAdapter)
    (seed : Nat) (st : Stores) (vehicles : List VehicleInput) (strat : Variant) :
    getStore strat (simulate_parking_allocation f adapter seed st vehicles strat).1
      = (SimulationRunner.run f strat adapter seed vehicles).filterMap
          (successRecord vehicles) ∧
    (getStore strat (simulate_parking_allocation f adapter seed st vehicles strat).1).length
      = (SimulationRunner.run f strat adapter seed vehicles).countP
          (fun o => o.status == OutcomeStatus.success) ∧
    (simulate_parking_allocation f adapter seed st vehicles strat).1.main = st.main ∧
    ∀ v2, v2 ≠ strat →
      getStore v2 (simulate_parking_allocation f adapter seed st vehicles strat).1
        = getStore v2 st := by
  obtain ⟨h1, h2, h3⟩ := saveLoop_spec vehicles strat
    (SimulationRunner.run f strat adapter seed vehicles) (setStore strat [] st)
  have hstore : getStore strat (simulate_parking_allocation f adapter seed st vehicles strat).1
      = (SimulationRunner.run f strat adapter seed vehicles).filterMap
        (successRecord vehicles) := by
    unfold simulate_parking_allocation
    rw [h1, getStore_setStore_same]
    rfl
  refine ⟨hstore, ?_, ?_, ?_⟩
  · rw [hstore]
    exact length_filterMap_countP _ _ _
      (run_successRecord_isSome f strat adapter seed vehicles)
  · unfold simulate_parking_allocation
    rw [h2, main_setStore]
  · intro v2 hne
    unfold simulate_parking_allocation
    rw [h3 v2 hne, getStore_setStore_other strat v2 hne]

/-- Witness for C10: starting from stores all holding a stale record, a
sequential-strategy simulation leaves the random store untouched while the
sequential store holds exactly this run's record. -/
theorem simulate_truncates_then_saves_witness :
    getStore .random (simulate_parking_allocation ⟨2, 2⟩ dAdapter 0
        ⟨[expiredRec], [expiredRec], [expiredRec], [expiredRec]⟩
        [sampleReq 1] .sequential).1 = [expiredRec] ∧
    (getStore .sequential (simulate_parking_allocation ⟨2, 2⟩ dAdapter 0
        ⟨[expiredRec], [expiredRec], [expiredRec], [expiredRec]⟩
        [sampleReq 1] .sequential).1).length = 1 :=
  ⟨(simulate_truncates_then_saves ⟨2, 2⟩ dAdapter 0
      ⟨[expiredRec], [expiredRec], [expiredRec], [expiredRec]⟩
      [sampleReq 1] .sequential).2.2.2 .random (by decide),
    by
      rw [(simulate_truncates_then_saves ⟨2, 2⟩ dAdapter 0
        ⟨[expiredRec], [expiredRec], [expiredRec], [expiredRec]⟩
        [sampleReq 1] .sequential).2.1]
      decide⟩

end SmartParking
